import Mathlib

/-!
Verification of the video-transcription job pipeline.

This file gives a shallow embedding of the job registry (`src/jobs.py`),
the S3 URI parser and the background pipeline `process_transcription`
(`src/main.py`), together with theorems settling the specified claims.

Modelling conventions:
* The Python module-level dict `jobs` becomes an association list
  `Registry`; dict assignment updates in place, dict deletion filters.
* Timestamps (`datetime.utcnow()`) become an `Int` measured in hours, so
  `timedelta(hours=24)` is the constant `24`.
* Python dict payloads (`result`) become association lists `Dict`;
  Python truthiness of an optional dict (`if result:`) is `dictTruthy`.
* The boundary calls `download_file` / `transcribe_audio` / `upload_file`
  / `send_webhook_notification` / `send_consul_notification` are opaque:
  an `Env` records each call's outcome.  `transcribe_audio` may raise (its
  outcome is `Except`); the S3 helpers return booleans (they catch their
  client errors internally, `src/s3.py`), and the notification senders
  catch all delivery exceptions and return booleans (`src/notifications.py`).
* The local filesystem under `/tmp` is the list of existing paths;
  `os.remove` on a missing path raises (FileNotFoundError), modelled by
  routing to the handler of the enclosing `try`.
* A pipeline run threads a `ProcState` (registry, files, ordered log of
  boundary calls, log of registry updates it issued).
-/

namespace VideoTranscription

abbrev Dict := List (String × String)

/-- Look up a key in a Python-dict-like association list. -/
def dictGet : Dict → String → Option String
  | [], _ => none
  | (k, v) :: rest, key => if k == key then some v else dictGet rest key

/-- Python truthiness of the optional `result` argument: `None` and the
empty dict are falsy. -/
def dictTruthy : Option Dict → Bool
  | none => false
  | some d => !d.isEmpty

/-- One record of the module-level `jobs` dict (`src/jobs.py`): `create_job`
stores `status` and `created_at`; `update_job_status` may add `result`. -/
structure JobRecord where
  status : String
  created_at : Int
  result : Option Dict
deriving DecidableEq, Repr

abbrev Registry := List (String × JobRecord)

def lookupJob : Registry → String → Option JobRecord
  | [], _ => none
  | (k, v) :: rest, id => if k == id then some v else lookupJob rest id

def containsJob (jobs : Registry) (id : String) : Bool :=
  jobs.any (fun p => p.1 == id)

/-- `create_job` (src/jobs.py): `jobs[job_id] = ("processing", created_at=now)`.
Dict assignment overwrites an existing key in place, else appends. -/
def create_job (jobs : Registry) (job_id : String) (now : Int) : Registry :=
  let rec_ : JobRecord := { status := "processing", created_at := now, result := none }
  if containsJob jobs job_id then
    jobs.map (fun p => if p.1 == job_id then (p.1, rec_) else p)
  else
    jobs ++ [(job_id, rec_)]

/-- `update_job_status` (src/jobs.py): if the id is present, set `status`
always and `result` only when the argument is truthy, returning `True`;
otherwise leave the dict alone and return `False`. -/
def update_job_status (jobs : Registry) (job_id status : String)
    (result : Option Dict) : Registry × Bool :=
  if containsJob jobs job_id then
    (jobs.map (fun p =>
      if p.1 == job_id then
        (p.1, { p.2 with
                status := status,
                result := if dictTruthy result then result else p.2.result })
      else p), true)
  else
    (jobs, false)

/-- `cleanup_jobs` (src/jobs.py): delete every record with
`created_at < utcnow() - timedelta(hours=24)`. -/
def cleanup_jobs (jobs : Registry) (now : Int) : Registry :=
  jobs.filter (fun p => !(decide (p.2.created_at < now - 24)))

/-! ## S3 URI parsing (`parse_s3_uri`, nested in `process_transcription`) -/

/-- Python `s.split("/", 1)` on a char list: `none` when no slash occurs,
else the part before the first slash and the rest. -/
def splitOnceAux : List Char → List Char → Option (String × String)
  | [], _ => none
  | c :: rest, acc =>
    if c = '/' then some (String.mk acc.reverse, String.mk rest)
    else splitOnceAux rest (c :: acc)

/-- Characters removed by Python `str.strip()`. -/
def isSpaceChar (c : Char) : Bool :=
  c == ' ' || c == '\t' || c == '\n' || c == '\r'

/-- `parse_s3_uri` (src/main.py): require the `s3://` scheme, split the
remainder at the first slash into bucket and key, and reject an empty or
all-whitespace bucket.  Raising `ValueError` is modelled as `.error` with
the message text. -/
def parse_s3_uri (s3_uri : String) : Except String (String × String) :=
  match s3_uri.data with
  | 's' :: '3' :: ':' :: '/' :: '/' :: s3_path =>
    match splitOnceAux s3_path [] with
    | none => .error ("Invalid S3 URI format: " ++ s3_uri)
    | some (bucket, key) =>
      if (bucket.data.all isSpaceChar) then
        .error ("Invalid bucket name in S3 URI: " ++ s3_uri)
      else
        .ok (bucket, key)
  | _ => .error ("Invalid S3 URI: " ++ s3_uri ++ ". Must start with s3://")

/-- `os.path.basename`: the part of a path after its last slash. -/
def takeUntilSlash : List Char → List Char
  | [] => []
  | c :: rest => if c = '/' then [] else c :: takeUntilSlash rest

def basename (p : String) : String :=
  String.mk (takeUntilSlash p.data.reverse).reverse

/-! ## The pipeline `process_transcription` (src/main.py) -/

/-- The boundary calls the pipeline makes, in invocation order. -/
inductive Step
  | download
  | transcribe
  | upload
  | webhook
  | consul
deriving DecidableEq, Repr

/-- Outcomes of the boundary calls for one run.  `transcribe_audio` either
returns text or raises (message carried in `.error`); the S3 transfer
helpers and both notification senders catch their exceptions and return a
boolean (src/s3.py, src/notifications.py). -/
structure Env where
  download_ok : Bool
  transcribe_result : Except String String
  upload_ok : Bool
  webhook_ok : Bool
  consul_ok : Bool

/-- State threaded through one pipeline run: the shared registry, the set
of existing local files, the ordered boundary-call log, and the log of
`update_job_status` calls the run issued (status, result argument). -/
structure ProcState where
  jobs : Registry
  files : List String
  calls : List Step
  updates : List (String × Option Dict)
deriving Repr

def initState (jobs : Registry) : ProcState :=
  { jobs := jobs, files := [], calls := [], updates := [] }

/-- Issue `update_job_status`; the returned flag is discarded, exactly as
every call site in `process_transcription` discards it. -/
def doUpdate (st : ProcState) (job_id status : String) (result : Option Dict) : ProcState :=
  { st with
    jobs := (update_job_status st.jobs job_id status result).1,
    updates := st.updates ++ [(status, result)] }

def addFile (files : List String) (f : String) : List String :=
  if files.contains f then files else files ++ [f]

def removeFile (files : List String) (f : String) : List String :=
  files.filter (fun g => g != f)

/-- The `except Exception` handler of `process_transcription`: record the
failure, then remove each temp file only if it exists (so this cleanup
itself cannot raise). -/
def exceptionHandler (st : ProcState) (job_id msg la lt : String) : ProcState :=
  let st1 := doUpdate st job_id "failed" (some [("error", "Job failed: " ++ msg)])
  let f1 := if st1.files.contains la then removeFile st1.files la else st1.files
  let f2 := if f1.contains lt then removeFile f1 lt else f1
  { st1 with files := f2 }

/-- `process_transcription` (src/main.py): parse both URIs (a parse error
records a failed result and returns), then download, transcribe, write the
transcription locally, upload, mark completed, fire the notifications, and
remove the two temp files; any exception inside the `try` lands in
`exceptionHandler`.  The stage-failure early returns (download, upload)
record a failed result and return without touching the temp files. -/
def process_transcription (env : Env) (st0 : ProcState)
    (job_id input_s3_path output_s3_path : String)
    (webhook_url : Option String) (consul_notification : Bool) : ProcState :=
  match parse_s3_uri input_s3_path with
  | .error e =>
    doUpdate st0 job_id "failed" (some [("error", "Failed to parse S3 URIs: " ++ e)])
  | .ok (_input_bucket, input_object) =>
    match parse_s3_uri output_s3_path with
    | .error e =>
      doUpdate st0 job_id "failed" (some [("error", "Failed to parse S3 URIs: " ++ e)])
    | .ok (_output_bucket, output_object) =>
      let local_audio_path := "/tmp/" ++ basename input_object
      let local_transcription_path := "/tmp/" ++ basename output_object
      let st1 := { st0 with calls := st0.calls ++ [Step.download] }
      if !env.download_ok then
        doUpdate st1 job_id "failed" (some [("error", "Failed to download audio file.")])
      else
        let st2 := { st1 with files := addFile st1.files local_audio_path }
        let st3 := { st2 with calls := st2.calls ++ [Step.transcribe] }
        match env.transcribe_result with
        | .error msg =>
          exceptionHandler st3 job_id msg local_audio_path local_transcription_path
        | .ok _transcription_result =>
          let st4 := { st3 with files := addFile st3.files local_transcription_path }
          let st5 := { st4 with calls := st4.calls ++ [Step.upload] }
          if !env.upload_ok then
            doUpdate st5 job_id "failed" (some [("error", "Failed to upload transcription.")])
          else
            let st6 := doUpdate st5 job_id "completed"
              (some [("output_s3_path", output_s3_path)])
            let st7 := if webhook_url.isSome
              then { st6 with calls := st6.calls ++ [Step.webhook] } else st6
            let st8 := if consul_notification
              then { st7 with calls := st7.calls ++ [Step.consul] } else st7
            if st8.files.contains local_audio_path then
              let st9 := { st8 with files := removeFile st8.files local_audio_path }
              if st9.files.contains local_transcription_path then
                { st9 with files := removeFile st9.files local_transcription_path }
              else
                exceptionHandler st9 job_id
                  ("No such file or directory: " ++ local_transcription_path)
                  local_audio_path local_transcription_path
            else
              exceptionHandler st8 job_id
                ("No such file or directory: " ++ local_audio_path)
                local_audio_path local_transcription_path

end VideoTranscription

namespace VideoTranscription

/-! ## Registry lemmas -/

theorem contains_of_lookup_some {jobs : Registry} {id : String} {rec : JobRecord}
    (h : lookupJob jobs id = some rec) : containsJob jobs id = true := by
  induction jobs with
  | nil => simp [lookupJob] at h
  | cons p rest ih =>
    simp only [lookupJob] at h
    by_cases hk : p.1 = id
    · simp [containsJob, hk]
    · rw [if_neg (by simp [hk] : ¬(p.1 == id) = true)] at h
      simp only [containsJob, List.any_cons, Bool.or_eq_true]
      exact Or.inr (ih h)

theorem update_absent {jobs : Registry} {id : String} (s : String) (res : Option Dict)
    (h : containsJob jobs id = false) :
    update_job_status jobs id s res = (jobs, false) := by
  simp [update_job_status, h]

theorem map_keep_noop {jobs : Registry} {id : String} (f : JobRecord → JobRecord)
    (h : containsJob jobs id = false) :
    jobs.map (fun p => if p.1 == id then (p.1, f p.2) else p) = jobs := by
  induction jobs with
  | nil => rfl
  | cons p rest ih =>
    simp only [containsJob, List.any_cons, Bool.or_eq_false_iff] at h
    rw [List.map_cons, if_neg (by simp [h.1] : ¬(p.1 == id) = true),
      ih (by simpa [containsJob] using h.2)]

theorem lookup_map_ite {jobs : Registry} {id : String} {rec : JobRecord}
    (f : JobRecord → JobRecord) (h : lookupJob jobs id = some rec) :
    lookupJob (jobs.map (fun p => if p.1 == id then (p.1, f p.2) else p)) id =
      some (f rec) := by
  induction jobs with
  | nil => simp [lookupJob] at h
  | cons p rest ih =>
    by_cases hk : p.1 = id
    · rw [lookupJob, if_pos (by simp [hk] : (p.1 == id) = true)] at h
      injection h with h
      subst h
      rw [List.map_cons, if_pos (by simp [hk] : (p.1 == id) = true), lookupJob,
        if_pos (by simp [hk] : ((p.1, f p.2).1 == id) = true)]
    · rw [lookupJob, if_neg (by simp [hk] : ¬(p.1 == id) = true)] at h
      rw [List.map_cons, if_neg (by simp [hk] : ¬(p.1 == id) = true), lookupJob,
        if_neg (by simp [hk] : ¬(p.1 == id) = true)]
      exact ih h

theorem lookup_update_some {jobs : Registry} {id : String} {rec : JobRecord}
    (s : String) (res : Option Dict) (h : lookupJob jobs id = some rec) :
    lookupJob (update_job_status jobs id s res).1 id =
      some { rec with status := s, result := if dictTruthy res then res else rec.result } := by
  have hc := contains_of_lookup_some h
  simp only [update_job_status, hc, if_pos]
  exact lookup_map_ite
    (fun r => { r with status := s, result := if dictTruthy res then res else r.result }) h

theorem map_update_created_at (jobs : Registry) (id s : String) (res : Option Dict) :
    (jobs.map (fun p =>
      if p.1 == id then
        (p.1, { p.2 with
                status := s,
                result := if dictTruthy res then res else p.2.result })
      else p)).map (fun q => (q.1, q.2.created_at)) =
    jobs.map (fun q => (q.1, q.2.created_at)) := by
  induction jobs with
  | nil => rfl
  | cons q rest ih =>
    simp only [List.map_cons, ih]
    by_cases hq : q.1 = id
    · rw [if_pos (by simp [hq] : (q.1 == id) = true)]
    · rw [if_neg (by simp [hq] : ¬(q.1 == id) = true)]

theorem update_created_at (jobs : Registry) (id s : String) (res : Option Dict) :
    ((update_job_status jobs id s res).1).map (fun q => (q.1, q.2.created_at)) =
      jobs.map (fun q => (q.1, q.2.created_at)) := by
  unfold update_job_status
  split
  · exact map_update_created_at jobs id s res
  · rfl

/-! ## C1: the eviction sweep -/

/-- C1 counterexample.  The claim says a job whose status was updated just
before the sweep runs survives the sweep.  Here a job created at hour 0 has
its status updated (successfully) at hour 25, immediately before the sweep
runs at hour 25 — yet the sweep removes it, because `cleanup_jobs` compares
`created_at` (there is no refreshed-on-update timestamp in the record). -/
theorem C1_counterexample :
    (update_job_status (create_job [] "job-1" 0) "job-1" "completed"
        (some [("output_s3_path", "s3://b/out")])).2 = true ∧
    cleanup_jobs
      (update_job_status (create_job [] "job-1" 0) "job-1" "completed"
        (some [("output_s3_path", "s3://b/out")])).1 25 = [] := by
  exact ⟨rfl, rfl⟩

/-- C1 (amended): `cleanup_jobs` removes a record exactly when its
`created_at` — set once at creation and never refreshed by
`update_job_status` — is older than the 24-hour cutoff; consequently a job
updated just before the sweep is still removed whenever its creation is
older than the window. -/
theorem C1_sweep_removes_by_created_at (jobs : Registry) (now : Int)
    (id s : String) (res : Option Dict) (p : String × JobRecord) :
    (p ∈ cleanup_jobs jobs now ↔ p ∈ jobs ∧ ¬(p.2.created_at < now - 24)) ∧
    ((update_job_status jobs id s res).1.map (fun q => (q.1, q.2.created_at)) =
      jobs.map (fun q => (q.1, q.2.created_at))) := by
  constructor
  · simp [cleanup_jobs, List.mem_filter]
  · exact update_created_at jobs id s res

/-! ## C9: `update_job_status` frame conditions -/

/-- C9: `update_job_status(id, status, None)` maps the registry pointwise,
rewriting only the `status` field of the record at `id` (the stored
`result` and `created_at` are untouched, since `None` is falsy no result is
written); its boolean return is exactly membership of `id`; and for an
absent id the whole call is the identity paired with `False`. -/
theorem C9_update_frame (jobs : Registry) (id status : String) :
    ((update_job_status jobs id status none).1 =
      jobs.map (fun p => if p.1 == id then (p.1, { p.2 with status := status }) else p)) ∧
    ((update_job_status jobs id status none).2 = containsJob jobs id) ∧
    (containsJob jobs id = false → update_job_status jobs id status none = (jobs, false)) := by
  refine ⟨?_, ?_, ?_⟩
  · unfold update_job_status
    split
    · simp [dictTruthy]
    · rename_i h
      rw [map_keep_noop (fun r => { r with status := status })]
      simpa using h
  · unfold update_job_status
    split <;> rename_i h <;> simp_all
  · intro h
    exact update_absent status none h

/-- C9 witness: a concrete absent id leaves a concrete registry unchanged
and reports `False`. -/
theorem C9_witness :
    update_job_status [("j", { status := "processing", created_at := 0, result := none })]
      "ghost" "failed" none =
      ([("j", { status := "processing", created_at := 0, result := none })], false) :=
  (C9_update_frame [("j", { status := "processing", created_at := 0, result := none })]
    "ghost" "failed").2.2 rfl

/-! ## C3: the result-iff-terminal invariant -/

/-- The claimed record invariant: `result` is set exactly when the status
is terminal. -/
def recInv (r : JobRecord) : Prop :=
  r.result.isSome = true ↔ (r.status = "completed" ∨ r.status = "failed")

def registryInv (jobs : Registry) : Prop :=
  ∀ p ∈ jobs, recInv p.2

theorem update_preserves_inv (jobs : Registry) (id s : String) (res : Option Dict)
    (hs : s = "completed" ∨ s = "failed") (hres : dictTruthy res = true)
    (h : registryInv jobs) : registryInv (update_job_status jobs id s res).1 := by
  unfold update_job_status
  split
  · intro p hp
    obtain ⟨q, hq, rfl⟩ := List.mem_map.1 hp
    by_cases hk : q.1 = id
    · rw [if_pos (by simp [hk] : (q.1 == id) = true)]
      cases res with
      | none => simp [dictTruthy] at hres
      | some d =>
        unfold recInv
        simp only [hres, if_true]
        rcases hs with rfl | rfl <;> simp
    · rw [if_neg (by simp [hk] : ¬(q.1 == id) = true)]
      exact h q hq
  · exact h

theorem create_preserves_inv (jobs : Registry) (id : String) (now : Int)
    (h : registryInv jobs) : registryInv (create_job jobs id now) := by
  simp only [create_job]
  split
  · intro p hp
    obtain ⟨q, hq, rfl⟩ := List.mem_map.1 hp
    by_cases hk : q.1 = id
    · rw [if_pos (by simp [hk] : (q.1 == id) = true)]
      unfold recInv
      simp
    · rw [if_neg (by simp [hk] : ¬(q.1 == id) = true)]
      exact h q hq
  · intro p hp
    rcases List.mem_append.1 hp with h1 | h2
    · exact h p h1
    · rw [List.mem_singleton.1 h2]
      unfold recInv
      simp

theorem cleanup_preserves_inv (jobs : Registry) (now : Int)
    (h : registryInv jobs) : registryInv (cleanup_jobs jobs now) :=
  fun p hp => h p (List.mem_filter.1 hp).1

theorem process_preserves_inv (env : Env) (st : ProcState)
    (id i o : String) (wh : Option String) (cn : Bool)
    (h : registryInv st.jobs) :
    registryInv (process_transcription env st id i o wh cn).jobs := by
  have hfail : ∀ (st2 : ProcState) (m : String), registryInv st2.jobs →
      registryInv (doUpdate st2 id "failed" (some [("error", m)])).jobs :=
    fun st2 m hh => update_preserves_inv st2.jobs id "failed" _ (Or.inr rfl) rfl hh
  have hexc : ∀ (st2 : ProcState) (m la lt : String), registryInv st2.jobs →
      registryInv (exceptionHandler st2 id m la lt).jobs :=
    fun st2 m la lt hh =>
      update_preserves_inv st2.jobs id "failed" _ (Or.inr rfl) rfl hh
  have hdone : ∀ (st2 : ProcState) (oo : String), registryInv st2.jobs →
      registryInv (doUpdate st2 id "completed" (some [("output_s3_path", oo)])).jobs :=
    fun st2 oo hh => update_preserves_inv st2.jobs id "completed" _ (Or.inl rfl) rfl hh
  simp only [process_transcription]
  repeat' split
  all_goals first
    | exact hfail _ _ h
    | exact hexc _ _ _ _ h
    | exact hdone _ _ h
    | exact hexc _ _ _ _ (hdone _ _ h)

/-- The registry states reachable through the operations the service
actually performs: the empty initial dict, `create_job`, a single
`update_job_status` of the shape every pipeline call site uses (a terminal
status together with a truthy result — this covers every intermediate
point of a run, interleaved arbitrarily with other jobs), `cleanup_jobs`,
and a whole background `process_transcription` run. -/
inductive Reachable : Registry → Prop
  | init : Reachable []
  | create (r : Registry) (id : String) (now : Int) :
      Reachable r → Reachable (create_job r id now)
  | update (r : Registry) (id s : String) (res : Option Dict) :
      Reachable r → (s = "completed" ∨ s = "failed") → dictTruthy res = true →
      Reachable ((update_job_status r id s res).1)
  | sweep (r : Registry) (now : Int) :
      Reachable r → Reachable (cleanup_jobs r now)
  | pipeline (r : Registry) (env : Env) (id i o : String)
      (wh : Option String) (cn : Bool) :
      Reachable r → Reachable ((process_transcription env (initState r) id i o wh cn).jobs)

/-- C3: in every reachable registry state — including every intermediate
point of a pipeline run — a record carries a `result` exactly when its
status is terminal (`completed` or `failed`); in particular a record still
in `processing` never carries a result. -/
theorem C3_result_iff_terminal (jobs : Registry) (h : Reachable jobs) :
    registryInv jobs ∧ ∀ p ∈ jobs, p.2.status = "processing" → p.2.result = none := by
  have hinv : registryInv jobs := by
    induction h with
    | init => intro p hp; cases hp
    | create r id now _ ih => exact create_preserves_inv r id now ih
    | update r id s res _ hs hres ih => exact update_preserves_inv r id s res hs hres ih
    | sweep r now _ ih => exact cleanup_preserves_inv r now ih
    | pipeline r env id i o wh cn _ ih => exact process_preserves_inv env (initState r) id i o wh cn ih
  refine ⟨hinv, fun p hp hproc => ?_⟩
  have := hinv p hp
  unfold recInv at this
  rw [hproc] at this
  simp at this
  cases hres : p.2.result with
  | none => rfl
  | some d => rw [hres] at this; simp at this

/-- C3 witness: the invariant holds in the concrete state reached by
creating a job and running a successful pipeline over it. -/
theorem C3_witness :
    registryInv
      ((process_transcription
        { download_ok := true, transcribe_result := .ok "text",
          upload_ok := true, webhook_ok := true, consul_ok := true }
        (initState (create_job [] "j" 0)) "j" "s3://b/in.mp4" "s3://b2/out.txt"
        (some "http://w") true).jobs) ∧
    registryInv (create_job [] "j" 0) :=
  ⟨(C3_result_iff_terminal _
      (Reachable.pipeline _ _ _ _ _ _ _ (Reachable.create _ _ _ Reachable.init))).1,
   (C3_result_iff_terminal _ (Reachable.create _ _ _ Reachable.init)).1⟩

/-! ## File-list and run-characterization lemmas -/

theorem contains_addFile_self (fs : List String) (f : String) :
    (addFile fs f).contains f = true := by
  unfold addFile
  split
  · assumption
  · simp

theorem mem_addFile_self (fs : List String) (f : String) : f ∈ addFile fs f := by
  unfold addFile
  split
  · rename_i h
    exact List.mem_of_elem_eq_true h
  · exact List.mem_append_right _ (List.mem_singleton_self f)

theorem mem_addFile_of_mem (fs : List String) (f g : String) (h : g ∈ fs) :
    g ∈ addFile fs f := by
  unfold addFile
  split
  · exact h
  · exact List.mem_append_left _ h

theorem mem_removeFile_of_ne (fs : List String) (f g : String) (hne : g ≠ f)
    (h : g ∈ fs) : g ∈ removeFile fs f := by
  unfold removeFile
  rw [List.mem_filter]
  exact ⟨h, by simp [hne]⟩

theorem doUpdate_jobs (st : ProcState) (id s : String) (res : Option Dict) :
    (doUpdate st id s res).jobs = (update_job_status st.jobs id s res).1 := rfl

theorem doUpdate_files (st : ProcState) (id s : String) (res : Option Dict) :
    (doUpdate st id s res).files = st.files := rfl

theorem doUpdate_calls (st : ProcState) (id s : String) (res : Option Dict) :
    (doUpdate st id s res).calls = st.calls := rfl

theorem doUpdate_updates (st : ProcState) (id s : String) (res : Option Dict) :
    (doUpdate st id s res).updates = st.updates ++ [(s, res)] := rfl

theorem exceptionHandler_jobs (st : ProcState) (id m la lt : String) :
    (exceptionHandler st id m la lt).jobs =
      (update_job_status st.jobs id "failed"
        (some [("error", "Job failed: " ++ m)])).1 := rfl

theorem exceptionHandler_calls (st : ProcState) (id m la lt : String) :
    (exceptionHandler st id m la lt).calls = st.calls := rfl

theorem exceptionHandler_updates (st : ProcState) (id m la lt : String) :
    (exceptionHandler st id m la lt).updates =
      st.updates ++ [("failed", some [("error", "Job failed: " ++ m)])] := rfl

theorem run_parse_error_inp (env : Env) (st : ProcState) (id i o : String)
    (wh : Option String) (cn : Bool) (e : String)
    (hi : parse_s3_uri i = .error e) :
    process_transcription env st id i o wh cn =
      doUpdate st id "failed" (some [("error", "Failed to parse S3 URIs: " ++ e)]) := by
  simp only [process_transcription, hi]

theorem run_parse_error_out (env : Env) (st : ProcState) (id i o : String)
    (wh : Option String) (cn : Bool) (ib ik e : String)
    (hi : parse_s3_uri i = .ok (ib, ik)) (ho : parse_s3_uri o = .error e) :
    process_transcription env st id i o wh cn =
      doUpdate st id "failed" (some [("error", "Failed to parse S3 URIs: " ++ e)]) := by
  simp only [process_transcription, hi, ho]

theorem run_download_fail (env : Env) (st : ProcState) (id i o : String)
    (wh : Option String) (cn : Bool) (ib ik ob okk : String)
    (hi : parse_s3_uri i = .ok (ib, ik)) (ho : parse_s3_uri o = .ok (ob, okk))
    (hd : env.download_ok = false) :
    process_transcription env st id i o wh cn =
      doUpdate { st with calls := st.calls ++ [Step.download] } id "failed"
        (some [("error", "Failed to download audio file.")]) := by
  simp only [process_transcription, hi, ho, hd, Bool.not_false, if_true]

theorem run_transcribe_error (env : Env) (st : ProcState) (id i o : String)
    (wh : Option String) (cn : Bool) (ib ik ob okk m : String)
    (hi : parse_s3_uri i = .ok (ib, ik)) (ho : parse_s3_uri o = .ok (ob, okk))
    (hd : env.download_ok = true) (ht : env.transcribe_result = .error m) :
    process_transcription env st id i o wh cn =
      exceptionHandler
        { st with
          files := addFile st.files ("/tmp/" ++ basename ik),
          calls := st.calls ++ [Step.download] ++ [Step.transcribe] }
        id m ("/tmp/" ++ basename ik) ("/tmp/" ++ basename okk) := by
  simp only [process_transcription, hi, ho, hd, ht, Bool.not_true, Bool.false_eq_true,
    if_false]

theorem run_upload_fail (env : Env) (st : ProcState) (id i o : String)
    (wh : Option String) (cn : Bool) (ib ik ob okk txt : String)
    (hi : parse_s3_uri i = .ok (ib, ik)) (ho : parse_s3_uri o = .ok (ob, okk))
    (hd : env.download_ok = true) (ht : env.transcribe_result = .ok txt)
    (hu : env.upload_ok = false) :
    process_transcription env st id i o wh cn =
      doUpdate
        { st with
          files := addFile (addFile st.files ("/tmp/" ++ basename ik))
            ("/tmp/" ++ basename okk),
          calls := st.calls ++ [Step.download] ++ [Step.transcribe] ++ [Step.upload] }
        id "failed" (some [("error", "Failed to upload transcription.")]) := by
  simp only [process_transcription, hi, ho, hd, ht, hu, Bool.not_true, Bool.not_false,
    Bool.false_eq_true, if_false, if_true]

theorem run_success (env : Env) (st : ProcState) (id i o : String)
    (wh : Option String) (cn : Bool) (ib ik ob okk txt : String)
    (hi : parse_s3_uri i = .ok (ib, ik)) (ho : parse_s3_uri o = .ok (ob, okk))
    (hd : env.download_ok = true) (ht : env.transcribe_result = .ok txt)
    (hu : env.upload_ok = true)
    (hne : ("/tmp/" ++ basename ik) ≠ ("/tmp/" ++ basename okk)) :
    process_transcription env st id i o wh cn =
      { jobs := (update_job_status st.jobs id "completed"
          (some [("output_s3_path", o)])).1,
        files := removeFile (removeFile
          (addFile (addFile st.files ("/tmp/" ++ basename ik))
            ("/tmp/" ++ basename okk)) ("/tmp/" ++ basename ik))
          ("/tmp/" ++ basename okk),
        calls := st.calls ++ [Step.download] ++ [Step.transcribe] ++ [Step.upload]
          ++ (if wh.isSome then [Step.webhook] else [])
          ++ (if cn then [Step.consul] else []),
        updates := st.updates ++ [("completed", some [("output_s3_path", o)])] } := by
  have hla : ("/tmp/" ++ basename ik) ∈
      addFile (addFile st.files ("/tmp/" ++ basename ik)) ("/tmp/" ++ basename okk) :=
    mem_addFile_of_mem _ _ _ (mem_addFile_self st.files ("/tmp/" ++ basename ik))
  have hlt : ("/tmp/" ++ basename okk) ∈ removeFile
      (addFile (addFile st.files ("/tmp/" ++ basename ik)) ("/tmp/" ++ basename okk))
      ("/tmp/" ++ basename ik) :=
    mem_removeFile_of_ne _ _ _ (Ne.symm hne)
      (mem_addFile_self _ ("/tmp/" ++ basename okk))
  simp only [process_transcription, hi, ho, hd, ht, hu, Bool.not_true,
    Bool.false_eq_true, if_false, doUpdate_files, doUpdate_jobs, doUpdate_calls,
    doUpdate_updates]
  cases wh <;> cases cn <;>
    simp [hla, hlt, doUpdate_files, doUpdate_jobs, doUpdate_calls, doUpdate_updates]

/-! ## Concrete fixtures used by witnesses and counterexamples -/

def sampleRec : JobRecord := { status := "processing", created_at := 0, result := none }

def sampleReg : Registry := [("j", sampleRec)]

def envAllOK : Env :=
  { download_ok := true, transcribe_result := .ok "0.00-1.00: hello",
    upload_ok := true, webhook_ok := true, consul_ok := true }

def envNotifFail : Env := { envAllOK with webhook_ok := false, consul_ok := false }

def envUploadFail : Env := { envAllOK with upload_ok := false }

def envBadCodec : Env := { envAllOK with transcribe_result := .error "bad codec" }

def envFetchFail : Env := { envAllOK with download_ok := false }

/-- The guard used by several theorems: when both URIs parse, their keys
have distinct basenames, so the two `/tmp` paths are distinct files.  (When
they collide, the success path of the code deletes the single shared file
twice; the second `os.remove` raises and the handler flips the job to
failed — see `C5_counterexample_input` discussion in `C5`.) -/
def tempPathsDistinct (i o : String) : Bool :=
  match parse_s3_uri i, parse_s3_uri o with
  | .ok (_, ik), .ok (_, okk) => ("/tmp/" ++ basename ik) != ("/tmp/" ++ basename okk)
  | _, _ => true

theorem tempPathsDistinct_ne {i o ib ik ob okk : String}
    (hi : parse_s3_uri i = .ok (ib, ik)) (ho : parse_s3_uri o = .ok (ob, okk))
    (h : tempPathsDistinct i o = true) :
    ("/tmp/" ++ basename ik) ≠ ("/tmp/" ++ basename okk) := by
  unfold tempPathsDistinct at h
  rw [hi, ho] at h
  simpa using h

/-! ## C2: notification failure is harmless -/

/-- C2: on a successful run (both URIs parse, download/transcribe/upload
succeed, distinct temp paths) with a webhook registered whose delivery
fails, (1) the outcome of the two notification calls has no influence at
all on the resulting registry (or on anything else in the run state, since
`process_transcription` discards both boolean returns), (2) the record
stays `completed`, and (3) the webhook is attempted and the Consul publish
is still attempted afterwards when enabled. -/
theorem C2_notification_failure_harmless (env : Env) (jobs : Registry)
    (rec : JobRecord) (job_id i o url ib ik ob okk txt : String) (cn : Bool)
    (hi : parse_s3_uri i = .ok (ib, ik)) (ho : parse_s3_uri o = .ok (ob, okk))
    (hd : env.download_ok = true) (ht : env.transcribe_result = .ok txt)
    (hu : env.upload_ok = true) (_hw : env.webhook_ok = false)
    (hj : lookupJob jobs job_id = some rec)
    (hne : tempPathsDistinct i o = true) :
    (∀ w c : Bool,
      process_transcription { env with webhook_ok := w, consul_ok := c }
        (initState jobs) job_id i o (some url) cn =
      process_transcription env (initState jobs) job_id i o (some url) cn) ∧
    (∃ rec2, lookupJob
        (process_transcription env (initState jobs) job_id i o (some url) cn).jobs
        job_id = some rec2 ∧ rec2.status = "completed") ∧
    Step.webhook ∈
      (process_transcription env (initState jobs) job_id i o (some url) cn).calls ∧
    (cn = true → Step.consul ∈
      (process_transcription env (initState jobs) job_id i o (some url) cn).calls) := by
  have hne2 := tempPathsDistinct_ne hi ho hne
  refine ⟨fun w c => rfl, ?_, ?_, ?_⟩
  · rw [run_success env (initState jobs) job_id i o (some url) cn ib ik ob okk txt
      hi ho hd ht hu hne2]
    exact ⟨_, lookup_update_some "completed" (some [("output_s3_path", o)]) hj, rfl⟩
  · rw [run_success env (initState jobs) job_id i o (some url) cn ib ik ob okk txt
      hi ho hd ht hu hne2]
    simp
  · intro hcn
    rw [run_success env (initState jobs) job_id i o (some url) cn ib ik ob okk txt
      hi ho hd ht hu hne2, hcn]
    simp

/-- C2 witness: the concrete run with failing notification targets still
attempts the Consul publish after the failed webhook. -/
theorem C2_witness :
    Step.consul ∈ (process_transcription envNotifFail (initState sampleReg) "j"
      "s3://b/in.mp4" "s3://b2/out.txt" (some "http://w") true).calls :=
  (C2_notification_failure_harmless envNotifFail sampleReg sampleRec "j"
    "s3://b/in.mp4" "s3://b2/out.txt" "http://w" "b" "in.mp4" "b2" "out.txt"
    "0.00-1.00: hello" true rfl rfl rfl rfl rfl rfl rfl rfl).2.2.2 rfl

/-! ## C4: temp-file cleanup on exit paths -/

/-- C4 counterexample.  The claim says the downloaded audio file and the
written transcription file are removed on every exit path, including the
upload-failure early return.  On a concrete run whose upload fails, both
files are still present afterwards. -/
theorem C4_counterexample :
    (process_transcription envUploadFail (initState sampleReg) "j"
      "s3://b/in.mp4" "s3://b2/out.txt" none false).files =
      ["/tmp/in.mp4", "/tmp/out.txt"] := rfl

/-- C4 (amended): starting from an empty temp dir, the two temp files are
removed on the success path (with distinct temp paths) and on the
exception path (transcription raising), but the upload-failure early
return performs no cleanup: both files remain. -/
theorem C4_cleanup_per_path (env : Env) (jobs : Registry)
    (job_id i o ib ik ob okk : String) (wh : Option String) (cn : Bool)
    (hi : parse_s3_uri i = .ok (ib, ik)) (ho : parse_s3_uri o = .ok (ob, okk))
    (hd : env.download_ok = true) :
    (∀ txt, env.transcribe_result = .ok txt → env.upload_ok = true →
      tempPathsDistinct i o = true →
      (process_transcription env (initState jobs) job_id i o wh cn).files = []) ∧
    (∀ m, env.transcribe_result = .error m →
      (process_transcription env (initState jobs) job_id i o wh cn).files = []) ∧
    (∀ txt, env.transcribe_result = .ok txt → env.upload_ok = false →
      ("/tmp/" ++ basename ik) ∈
        (process_transcription env (initState jobs) job_id i o wh cn).files ∧
      ("/tmp/" ++ basename okk) ∈
        (process_transcription env (initState jobs) job_id i o wh cn).files) := by
  refine ⟨?_, ?_, ?_⟩
  · intro txt ht hu hne
    have hne2 := tempPathsDistinct_ne hi ho hne
    rw [run_success env (initState jobs) job_id i o wh cn ib ik ob okk txt
      hi ho hd ht hu hne2]
    show removeFile (removeFile (addFile (addFile [] _) _) _) _ = []
    simp [addFile, removeFile, hne2, Ne.symm hne2]
  · intro m ht
    rw [run_transcribe_error env (initState jobs) job_id i o wh cn ib ik ob okk m
      hi ho hd ht]
    show (exceptionHandler _ _ _ _ _).files = []
    simp [exceptionHandler, doUpdate, addFile, removeFile, initState]
  · intro txt ht hu
    rw [run_upload_fail env (initState jobs) job_id i o wh cn ib ik ob okk txt
      hi ho hd ht hu]
    rw [doUpdate_files]
    exact ⟨mem_addFile_of_mem _ _ _ (mem_addFile_self _ _), mem_addFile_self _ _⟩

/-- C4 witness: on the concrete successful run the temp dir is empty
afterwards. -/
theorem C4_witness :
    (process_transcription envAllOK (initState sampleReg) "j"
      "s3://b/in.mp4" "s3://b2/out.txt" none false).files = [] :=
  (C4_cleanup_per_path envAllOK sampleReg "j" "s3://b/in.mp4" "s3://b2/out.txt"
    "b" "in.mp4" "b2" "out.txt" none false rfl rfl rfl).1
    "0.00-1.00: hello" rfl rfl rfl

/-! ## C5: the observable status sequence -/

/-- The sequence of status values the registry record for the job takes
during one run (the job being present throughout): `"processing"` written
by `create_job`, followed by the statuses of the updates the pipeline
issues, in order.  A poller observes a subsequence of this list. -/
def pipelineStatusWrites (env : Env) (jobs : Registry) (id i o : String)
    (wh : Option String) (cn : Bool) : List String :=
  "processing" ::
    ((process_transcription env (initState jobs) id i o wh cn).updates.map Prod.fst)

/-- The state chain named by the claim. -/
def specStateChain : List String :=
  ["PENDING", "FETCHING", "TRANSFORMING", "STORING", "NOTIFYING", "COMPLETED"]

/-- The claimed shape of an observed status sequence: a subsequence of the
spec chain, or a subsequence of its non-terminal prefix ending early at
FAILED. -/
def claimObservedOK (obs : List String) : Prop :=
  obs.Sublist specStateChain ∨
  (obs.getLast? = some "FAILED" ∧
    obs.dropLast.Sublist ["PENDING", "FETCHING", "TRANSFORMING", "STORING", "NOTIFYING"])

/-- C5 counterexample: the status sequence of a concrete successful run is
`["processing", "completed"]`, which is neither a subsequence of
`PENDING..COMPLETED` nor a sequence ending at `FAILED` — the code never
records any of the claimed state names. -/
theorem C5_counterexample :
    ¬ claimObservedOK (pipelineStatusWrites envAllOK sampleReg "j"
      "s3://b/in.mp4" "s3://b2/out.txt" (some "http://w") true) := by
  simp only [claimObservedOK]
  decide

/-- C5 (amended): over the statuses the code actually uses, the record's
status sequence during a run is exactly `["processing", "completed"]` or
`["processing", "failed"]` (given distinct temp paths): monotone, no
backward step, terminal reached exactly once. -/
theorem C5_status_writes (env : Env) (jobs : Registry) (id i o : String)
    (wh : Option String) (cn : Bool)
    (hne : tempPathsDistinct i o = true) :
    pipelineStatusWrites env jobs id i o wh cn = ["processing", "completed"] ∨
    pipelineStatusWrites env jobs id i o wh cn = ["processing", "failed"] := by
  unfold pipelineStatusWrites
  cases hi : parse_s3_uri i with
  | error e =>
    right
    rw [run_parse_error_inp env (initState jobs) id i o wh cn e hi, doUpdate_updates]
    simp [initState]
  | ok p =>
    obtain ⟨ib, ik⟩ := p
    cases ho : parse_s3_uri o with
    | error e =>
      right
      rw [run_parse_error_out env (initState jobs) id i o wh cn ib ik e hi ho,
        doUpdate_updates]
      simp [initState]
    | ok q =>
      obtain ⟨ob, okk⟩ := q
      cases hd : env.download_ok with
      | false =>
        right
        rw [run_download_fail env (initState jobs) id i o wh cn ib ik ob okk hi ho hd,
          doUpdate_updates]
        simp [initState]
      | true =>
        cases ht : env.transcribe_result with
        | error m =>
          right
          rw [run_transcribe_error env (initState jobs) id i o wh cn ib ik ob okk m
            hi ho hd ht, exceptionHandler_updates]
          simp [initState]
        | ok txt =>
          cases hu : env.upload_ok with
          | false =>
            right
            rw [run_upload_fail env (initState jobs) id i o wh cn ib ik ob okk txt
              hi ho hd ht hu, doUpdate_updates]
            simp [initState]
          | true =>
            left
            rw [run_success env (initState jobs) id i o wh cn ib ik ob okk txt
              hi ho hd ht hu (tempPathsDistinct_ne hi ho hne)]
            simp [initState]

/-- C5 witness: the concrete successful run yields the monotone sequence
`["processing", "completed"]`. -/
theorem C5_witness :
    pipelineStatusWrites envAllOK sampleReg "j" "s3://b/in.mp4" "s3://b2/out.txt"
        (some "http://w") true = ["processing", "completed"] ∨
    pipelineStatusWrites envAllOK sampleReg "j" "s3://b/in.mp4" "s3://b2/out.txt"
        (some "http://w") true = ["processing", "failed"] :=
  C5_status_writes envAllOK sampleReg "j" "s3://b/in.mp4" "s3://b2/out.txt"
    (some "http://w") true rfl

/-! ## C6: a not-found update and the executor's reaction -/

/-- C6 counterexample.  The claim says that after a not-found registry
update the executor abandons all further work.  Running the pipeline for a
job id that is absent from the registry (evicted or never created): every
`update_job_status` call reports not-found (shown for the completed-update
the run performs), the registry stays empty — yet the upload and both
notification calls still execute. -/
theorem C6_counterexample :
    (update_job_status [] "ghost" "completed"
      (some [("output_s3_path", "s3://b2/out.txt")])).2 = false ∧
    (process_transcription envAllOK (initState []) "ghost"
      "s3://b/in.mp4" "s3://b2/out.txt" (some "http://w") true).jobs = [] ∧
    Step.upload ∈ (process_transcription envAllOK (initState []) "ghost"
      "s3://b/in.mp4" "s3://b2/out.txt" (some "http://w") true).calls ∧
    Step.webhook ∈ (process_transcription envAllOK (initState []) "ghost"
      "s3://b/in.mp4" "s3://b2/out.txt" (some "http://w") true).calls := by
  refine ⟨rfl, rfl, ?_, ?_⟩ <;> decide

/-- C6 (amended): a not-found update does leave the registry unchanged and
returns `False` without re-creating the record — but `process_transcription`
discards that signal, so on a successful-adapter run for an absent job the
registry passes through unchanged while the later steps (upload, webhook)
still execute. -/
theorem C6_notfound_update_ignored (env : Env) (jobs : Registry)
    (job_id i o url ib ik ob okk txt : String) (cn : Bool)
    (habs : containsJob jobs job_id = false)
    (hi : parse_s3_uri i = .ok (ib, ik)) (ho : parse_s3_uri o = .ok (ob, okk))
    (hd : env.download_ok = true) (ht : env.transcribe_result = .ok txt)
    (hu : env.upload_ok = true)
    (hne : tempPathsDistinct i o = true) :
    (∀ s res, update_job_status jobs job_id s res = (jobs, false)) ∧
    (process_transcription env (initState jobs) job_id i o (some url) cn).jobs
      = jobs ∧
    Step.upload ∈
      (process_transcription env (initState jobs) job_id i o (some url) cn).calls ∧
    Step.webhook ∈
      (process_transcription env (initState jobs) job_id i o (some url) cn).calls := by
  have hne2 := tempPathsDistinct_ne hi ho hne
  refine ⟨fun s res => update_absent s res habs, ?_, ?_, ?_⟩
  · rw [run_success env (initState jobs) job_id i o (some url) cn ib ik ob okk txt
      hi ho hd ht hu hne2]
    show (update_job_status jobs job_id "completed" _).1 = jobs
    rw [update_absent _ _ habs]
  · rw [run_success env (initState jobs) job_id i o (some url) cn ib ik ob okk txt
      hi ho hd ht hu hne2]
    simp
  · rw [run_success env (initState jobs) job_id i o (some url) cn ib ik ob okk txt
      hi ho hd ht hu hne2]
    simp

/-- C6 witness: concrete absent-job run. -/
theorem C6_witness :
    Step.upload ∈ (process_transcription envAllOK (initState [("k", sampleRec)])
      "ghost" "s3://b/in.mp4" "s3://b2/out.txt" (some "http://w") false).calls :=
  (C6_notfound_update_ignored envAllOK [("k", sampleRec)] "ghost"
    "s3://b/in.mp4" "s3://b2/out.txt" "http://w" "b" "in.mp4" "b2" "out.txt"
    "0.00-1.00: hello" false rfl rfl rfl rfl rfl rfl rfl).2.2.1

/-! ## C7: transform failure with "bad codec" -/

/-- C7 counterexample.  The claim expects `result.stage == "TRANSFORMING"`
and `result.message == "bad codec"`.  On the concrete run whose
transcription raises "bad codec", the stored result is the flat dict
`{"error": "Job failed: bad codec"}`: it has no `stage` field and no
`message` field (and the code has no state named TRANSFORMING at all). -/
theorem C7_counterexample :
    ((lookupJob (process_transcription envBadCodec (initState sampleReg) "j"
        "s3://b/in.mp4" "s3://b2/out.txt" none false).jobs "j").bind
      (fun r => r.result)) = some [("error", "Job failed: bad codec")] ∧
    dictGet [("error", "Job failed: bad codec")] "stage" = none ∧
    dictGet [("error", "Job failed: bad codec")] "message" = none := by
  refine ⟨rfl, rfl, rfl⟩

/-- C7 (amended): when the fetch succeeds and the transform raises
"bad codec", the store step (`upload_file`) is never invoked and the job's
record becomes `failed` with result `{"error": "Job failed: bad codec"}`
(the stage and the raw message appear only inside that single formatted
error string). -/
theorem C7_transform_failure (env : Env) (jobs : Registry) (rec : JobRecord)
    (job_id i o ib ik ob okk : String) (wh : Option String) (cn : Bool)
    (hi : parse_s3_uri i = .ok (ib, ik)) (ho : parse_s3_uri o = .ok (ob, okk))
    (hd : env.download_ok = true)
    (ht : env.transcribe_result = .error "bad codec")
    (hj : lookupJob jobs job_id = some rec) :
    Step.upload ∉
      (process_transcription env (initState jobs) job_id i o wh cn).calls ∧
    lookupJob (process_transcription env (initState jobs) job_id i o wh cn).jobs
      job_id = some { rec with
        status := "failed",
        result := some [("error", "Job failed: bad codec")] } := by
  rw [run_transcribe_error env (initState jobs) job_id i o wh cn ib ik ob okk
    "bad codec" hi ho hd ht]
  constructor
  · rw [exceptionHandler_calls]
    show Step.upload ∉ [] ++ [Step.download] ++ [Step.transcribe]
    decide
  · rw [exceptionHandler_jobs]
    exact lookup_update_some "failed"
      (some [("error", "Job failed: " ++ "bad codec")]) hj

/-- C7 witness: the concrete bad-codec run never uploads and records the
flat failed result. -/
theorem C7_witness :
    Step.upload ∉ (process_transcription envBadCodec (initState sampleReg) "j"
      "s3://b/in.mp4" "s3://b2/out.txt" none false).calls ∧
    lookupJob (process_transcription envBadCodec (initState sampleReg) "j"
        "s3://b/in.mp4" "s3://b2/out.txt" none false).jobs "j" =
      some { sampleRec with
        status := "failed",
        result := some [("error", "Job failed: bad codec")] } :=
  C7_transform_failure envBadCodec sampleReg sampleRec "j"
    "s3://b/in.mp4" "s3://b2/out.txt" "b" "in.mp4" "b2" "out.txt" none false
    rfl rfl rfl rfl rfl

/-! ## C8: fetch failure halts the pipeline -/

/-- C8: when the download fails (and the job record exists), neither the
transcription nor the upload is invoked — the only boundary call is the
download — and the record is set to `failed` with the download error
result. -/
theorem C8_fetch_failure (env : Env) (jobs : Registry) (rec : JobRecord)
    (job_id i o ib ik ob okk : String) (wh : Option String) (cn : Bool)
    (hi : parse_s3_uri i = .ok (ib, ik)) (ho : parse_s3_uri o = .ok (ob, okk))
    (hd : env.download_ok = false)
    (hj : lookupJob jobs job_id = some rec) :
    Step.transcribe ∉
      (process_transcription env (initState jobs) job_id i o wh cn).calls ∧
    Step.upload ∉
      (process_transcription env (initState jobs) job_id i o wh cn).calls ∧
    (process_transcription env (initState jobs) job_id i o wh cn).calls =
      [Step.download] ∧
    lookupJob (process_transcription env (initState jobs) job_id i o wh cn).jobs
      job_id = some { rec with
        status := "failed",
        result := some [("error", "Failed to download audio file.")] } := by
  rw [run_download_fail env (initState jobs) job_id i o wh cn ib ik ob okk hi ho hd]
  refine ⟨?_, ?_, ?_, ?_⟩
  · rw [doUpdate_calls]
    show Step.transcribe ∉ ([] : List Step) ++ [Step.download]
    decide
  · rw [doUpdate_calls]
    show Step.upload ∉ ([] : List Step) ++ [Step.download]
    decide
  · rfl
  · rw [doUpdate_jobs]
    exact lookup_update_some "failed"
      (some [("error", "Failed to download audio file.")]) hj

/-- C8 witness: the concrete fetch-failure run. -/
theorem C8_witness :
    Step.transcribe ∉ (process_transcription envFetchFail (initState sampleReg) "j"
      "s3://b/in.mp4" "s3://b2/out.txt" none false).calls ∧
    Step.upload ∉ (process_transcription envFetchFail (initState sampleReg) "j"
      "s3://b/in.mp4" "s3://b2/out.txt" none false).calls ∧
    (process_transcription envFetchFail (initState sampleReg) "j"
      "s3://b/in.mp4" "s3://b2/out.txt" none false).calls = [Step.download] ∧
    lookupJob (process_transcription envFetchFail (initState sampleReg) "j"
        "s3://b/in.mp4" "s3://b2/out.txt" none false).jobs "j" =
      some { sampleRec with
        status := "failed",
        result := some [("error", "Failed to download audio file.")] } :=
  C8_fetch_failure envFetchFail sampleReg sampleRec "j"
    "s3://b/in.mp4" "s3://b2/out.txt" "b" "in.mp4" "b2" "out.txt" none false
    rfl rfl rfl rfl

/-! ## C10: malformed S3 URIs -/

/-- The scheme check of the claim: the characters after a leading
`s3://`. -/
def s3SchemeRest (s : String) : Option (List Char) :=
  match s.data with
  | 's' :: '3' :: ':' :: '/' :: '/' :: rest => some rest
  | _ => none

/-- The claim's well-formedness condition on a submitted S3 path: it
starts with `s3://` and the remainder splits at a slash into a non-empty
bucket and a key (the key component may be empty — the code accepts
`s3://bucket/`). -/
def wellFormedS3 (s : String) : Bool :=
  match s3SchemeRest s with
  | none => false
  | some rest =>
    match splitOnceAux rest [] with
    | none => false
    | some (b, _) => b != ""

theorem parse_error_of_not_wellFormed (s : String) (h : wellFormedS3 s = false) :
    ∃ e, parse_s3_uri s = .error e := by
  unfold parse_s3_uri
  split
  · rename_i rest heq
    unfold wellFormedS3 s3SchemeRest at h
    rw [heq] at h
    have h2 : (match splitOnceAux rest [] with
      | none => false
      | some (b, _) => b != "") = false := h
    cases hsplit : splitOnceAux rest [] with
    | none => exact ⟨_, rfl⟩
    | some bk =>
      obtain ⟨b, k⟩ := bk
      rw [hsplit] at h2
      simp only [bne_eq_false_iff_eq] at h2
      subst h2
      exact ⟨_, rfl⟩
  · exact ⟨_, rfl⟩

/-- C10: if either submitted path is not well-formed (missing `s3://`
scheme, no bucket/key split, or an empty bucket), the pipeline makes no
boundary call at all — `download_file`, `transcribe_audio` and
`upload_file` are never invoked — and the job's record (when present) is
set to `failed` with a parse-error result. -/
theorem C10_malformed_uri_rejected (env : Env) (jobs : Registry) (rec : JobRecord)
    (job_id i o : String) (wh : Option String) (cn : Bool)
    (hbad : wellFormedS3 i = false ∨ wellFormedS3 o = false)
    (hj : lookupJob jobs job_id = some rec) :
    (process_transcription env (initState jobs) job_id i o wh cn).calls = [] ∧
    Step.download ∉
      (process_transcription env (initState jobs) job_id i o wh cn).calls ∧
    Step.transcribe ∉
      (process_transcription env (initState jobs) job_id i o wh cn).calls ∧
    Step.upload ∉
      (process_transcription env (initState jobs) job_id i o wh cn).calls ∧
    ∃ e, lookupJob
        (process_transcription env (initState jobs) job_id i o wh cn).jobs
        job_id = some { rec with
          status := "failed",
          result := some [("error", "Failed to parse S3 URIs: " ++ e)] } := by
  have hrun : ∃ e, process_transcription env (initState jobs) job_id i o wh cn =
      doUpdate (initState jobs) job_id "failed"
        (some [("error", "Failed to parse S3 URIs: " ++ e)]) := by
    cases hi : parse_s3_uri i with
    | error e => exact ⟨e, run_parse_error_inp env (initState jobs) job_id i o wh cn e hi⟩
    | ok p =>
      obtain ⟨ib, ik⟩ := p
      cases hbad with
      | inl hb =>
        obtain ⟨e, he⟩ := parse_error_of_not_wellFormed i hb
        rw [he] at hi
        cases hi
      | inr hb =>
        obtain ⟨e, he⟩ := parse_error_of_not_wellFormed o hb
        exact ⟨e, run_parse_error_out env (initState jobs) job_id i o wh cn ib ik e hi he⟩
  obtain ⟨e, he⟩ := hrun
  rw [he]
  refine ⟨doUpdate_calls _ _ _ _, ?_, ?_, ?_, ?_⟩
  · rw [doUpdate_calls]
    exact List.not_mem_nil _
  · rw [doUpdate_calls]
    exact List.not_mem_nil _
  · rw [doUpdate_calls]
    exact List.not_mem_nil _
  · rw [doUpdate_jobs]
    exact ⟨e, lookup_update_some "failed"
      (some [("error", "Failed to parse S3 URIs: " ++ e)]) hj⟩

/-- C10 witness: a path without the `s3://` scheme is rejected before any
boundary call. -/
theorem C10_witness :
    (process_transcription envAllOK (initState sampleReg) "j"
      "not-a-uri" "s3://b2/out.txt" none false).calls = [] :=
  (C10_malformed_uri_rejected envAllOK sampleReg sampleRec "j"
    "not-a-uri" "s3://b2/out.txt" none false (Or.inl rfl) rfl).1

end VideoTranscription
